import Mathlib

/-!
Verification of the `ctxkey` library (`context.go`) against its specification.

The library stores typed values in a Go `context.Context`.  We embed the
relevant Go semantics shallowly:

* A context is a chain of key/value layers, most recent first
  (`context.WithValue` prepends a layer; `ctx.Value` walks the chain and
  returns the first match, or the nil interface when nothing matches).
* Stored values are type-erased (`any`).  For a fixed value type `V` we model
  the erased payload by `Dyn V`: a genuine value of dynamic type `V`, the nil
  interface (an interface-typed `V` whose value is nil), a `*Box[V]` pointer
  (identified by a heap cell id), or a value of some unrelated dynamic type.
  The Go type assertion `x.(V)` recovers a value only from the first form.
* Whether a Go value `v : V` erases to the nil interface is a property of the
  Go type `V`; we pass it as a function `isNil : V → Bool` (constantly false
  for non-interface types, `nil`-detection for interface types).
* `Box[V]` cells are heap-allocated and mutable; we thread an explicit heap
  (cell contents plus a fresh-allocation counter) through the boxed-key
  operations.
* Keys are pointers, compared by identity; we model each key as carrying a
  numeric identity.  `Key[V]` is a zero-size struct, and in the standard Go
  runtime every escaping zero-size allocation returns the one shared address
  (`runtime.zerobase`), so every `New[V]()` call yields the same pointer; we
  model that shared address as identity `0`.  The non-zero-size key structs
  (`DefaultingKey`, `BoxedKey`) are allocated at genuinely fresh addresses,
  modelled as strictly positive identities drawn from an allocator.
* A Go `panic` is modelled as `none` in an `Option` result.
-/

namespace Ctxkey

/-- The type-erased payload (`any`) of one context layer, specialized to the
single value type `V` under discussion: a value whose dynamic type is `V`
(or, for interface `V`, a non-nil value implementing it), the nil interface,
a `*Box[V]` pointer carrying its heap cell id, or a value of an unrelated
dynamic type. -/
inductive Dyn (V : Type) where
  | val (v : V)
  | nilIface
  | box (cid : Nat)
  | other
deriving DecidableEq, Repr

/-- A context chain: layers most recent first.  `context.Background()` is `[]`. -/
abbrev Ctx (V : Type) := List (Nat × Dyn V)

/-- Model of `context.WithValue ctx k val`: layer one entry atop the chain. -/
def ctxWithValue {V : Type} (ctx : Ctx V) (id : Nat) (d : Dyn V) : Ctx V :=
  (id, d) :: ctx

/-- Model of `ctx.Value(k)`: walk the chain from the most recent layer and return the
first payload stored under `id`; an exhausted chain yields the nil
interface (Go's `Value` returns `nil` for a missing key). -/
def ctxValue {V : Type} : Ctx V → Nat → Dyn V
  | [], _ => .nilIface
  | (i, d) :: rest, id => if i = id then d else ctxValue rest id

/-- The Go type assertion `x.(V)` on an erased payload: it succeeds exactly on
a payload whose dynamic type is `V`; the nil interface, a `*Box[V]` pointer
and unrelated dynamic types all fail. -/
def assertV {V : Type} : Dyn V → Option V
  | .val v => some v
  | _ => none

/-- The Go type assertion `x.(*Box[V])`: succeeds exactly on a stored
`*Box[V]` pointer, yielding its cell id. -/
def assertBox {V : Type} : Dyn V → Option Nat
  | .box cid => some cid
  | _ => none

/-- Erase a Go value `v : V` to its `any` representation: for interface-typed
`V` a nil `v` erases to the nil interface, every other value keeps its
dynamic type `V`. -/
def erase {V : Type} (isNil : V → Bool) (v : V) : Dyn V :=
  if isNil v then .nilIface else .val v

/-- The heap backing `Box[V]` allocations: contents of each cell id, and the
next fresh id. -/
structure Heap (V : Type) where
  cells : Nat → V
  next : Nat

/-- Allocate a fresh `Box[V]` holding `v` (`&Box[V]{value: v}`); returns the
new cell's id and the extended heap. -/
def Heap.alloc {V : Type} (h : Heap V) (v : V) : Nat × Heap V :=
  (h.next, ⟨fun n => if n = h.next then v else h.cells n, h.next + 1⟩)

/-- Overwrite cell `cid` with `v` (`handle.value = val`). -/
def Heap.write {V : Type} (h : Heap V) (cid : Nat) (v : V) : Heap V :=
  ⟨fun n => if n = cid then v else h.cells n, h.next⟩

/-- Program state for the boxed-key operations: the context chain together
with the mutable heap of `Box` cells. -/
abbrev St (V : Type) := Ctx V × Heap V

/-- Key identity allocator: Go key constructors return fresh pointers; we model
pointer freshness with a counter. -/
structure Alloc where
  next : Nat

/-- Model of `Key[V]`: a plain context key, identified by its pointer identity. -/
structure Key where
  id : Nat
deriving DecidableEq, Repr

/-- Model of `New[V]()`, i.e. `return &Key[V]{}`.  `Key[V]` is a zero-size
struct; the Go specification leaves equality of pointers to distinct
zero-size variables unspecified, and the standard runtime returns the one
shared address `runtime.zerobase` for every escaping zero-size allocation.
So every `New[V]()` call returns the same pointer — modelled as the fixed
identity `0` — and the allocator state is unchanged (nothing is allocated). -/
def New (s : Alloc) : Key × Alloc :=
  (⟨0⟩, s)

/-- Model of `Key.Set`: `context.WithValue(ctx, k, val)`. -/
def Key.Set {V : Type} (k : Key) (isNil : V → Bool) (ctx : Ctx V) (val : V) : Ctx V :=
  ctxWithValue ctx k.id (erase isNil val)

/-- Model of `Key.Value`: `v, ok := ctx.Value(k).(V); return v, ok` — a failed
assertion yields `V`'s zero value and `false`. -/
def Key.Value {V : Type} (k : Key) (zero : V) (ctx : Ctx V) : V × Bool :=
  match assertV (ctxValue ctx k.id) with
  | some v => (v, true)
  | none => (zero, false)

/-- Model of `Key.MustValue`: returns the value, panicking (`none`) when not found. -/
def Key.MustValue {V : Type} (k : Key) (zero : V) (ctx : Ctx V) : Option V :=
  let vok := k.Value zero ctx
  if vok.2 then some vok.1 else none

/-- Model of `Key.With`: curried `Set`, as a state transformer usable with `With`. -/
def Key.With {V : Type} (k : Key) (isNil : V → Bool) (val : V) : St V → St V :=
  fun s => (k.Set isNil s.1 val, s.2)

/-- Model of `DefaultingKey[V]`: a key carrying a default value, identified by its
pointer identity. -/
structure DefaultingKey (V : Type) where
  id : Nat
  defaultValue : V

/-- Model of `NewWithDefault(defaultValue)`: construct a fresh defaulting key.
`DefaultingKey[V]` carries a `V` field, so for ordinary `V` the allocation
is non-zero-size and yields a genuinely fresh address, modelled as a
strictly positive identity that never aliases the zero-size address `0`.
(For unit-like `V` the struct is itself zero-size and would alias too, but
that is unobservable through its value-only API, since all values of such a
`V` coincide.) -/
def NewWithDefault {V : Type} (defaultValue : V) (s : Alloc) : DefaultingKey V × Alloc :=
  (⟨s.next + 1, defaultValue⟩, ⟨s.next + 1⟩)

/-- Model of `DefaultingKey.Set`: `context.WithValue(ctx, k, val)`. -/
def DefaultingKey.Set {V : Type} (k : DefaultingKey V) (isNil : V → Bool)
    (ctx : Ctx V) (val : V) : Ctx V :=
  ctxWithValue ctx k.id (erase isNil val)

/-- Model of `DefaultingKey.Value`: the stored value when the assertion succeeds, else
the default fixed at construction. -/
def DefaultingKey.Value {V : Type} (k : DefaultingKey V) (ctx : Ctx V) : V :=
  match assertV (ctxValue ctx k.id) with
  | some v => v
  | none => k.defaultValue

/-- Model of `DefaultingKey.MustNonEmptyValue`: panics (`none`) when the resolved value
equals `V`'s zero value (`var empty V; v == empty`). -/
def DefaultingKey.MustNonEmptyValue {V : Type} [DecidableEq V] (k : DefaultingKey V)
    (zero : V) (ctx : Ctx V) : Option V :=
  let v := k.Value ctx
  if v = zero then none else some v

/-- Model of `DefaultingKey.With`: curried `Set`, as a state transformer. -/
def DefaultingKey.With {V : Type} (k : DefaultingKey V) (isNil : V → Bool)
    (val : V) : St V → St V :=
  fun s => (k.Set isNil s.1 val, s.2)

/-- Model of `BoxedKey[V]`: a key whose context entry is a pointer to a mutable
`Box[V]` cell; carries a default value and its pointer identity. -/
structure BoxedKey (V : Type) where
  id : Nat
  defaultValue : V

/-- Model of `NewBoxedWithDefault(defaultValue)`: construct a fresh boxed key.
Like `DefaultingKey`, the struct carries a `V` field, so the allocation is
non-zero-size for ordinary `V` and gets a genuinely fresh, strictly
positive identity. -/
def NewBoxedWithDefault {V : Type} (defaultValue : V) (s : Alloc) : BoxedKey V × Alloc :=
  (⟨s.next + 1, defaultValue⟩, ⟨s.next + 1⟩)

/-- Model of `BoxedKey.Set`: if a `*Box[V]` is already stored for this key, mutate its
cell in place and return the context unchanged; otherwise allocate a fresh
box holding `val` and layer it atop the context. -/
def BoxedKey.Set {V : Type} (k : BoxedKey V) (s : St V) (val : V) : St V :=
  match assertBox (ctxValue s.1 k.id) with
  | some cid => (s.1, s.2.write cid val)
  | none =>
      let a := s.2.alloc val
      (ctxWithValue s.1 k.id (.box a.1), a.2)

/-- Model of `BoxedKey.SetBox`: layer a fresh box initialized to the default value. -/
def BoxedKey.SetBox {V : Type} (k : BoxedKey V) (s : St V) : St V :=
  let a := s.2.alloc k.defaultValue
  (ctxWithValue s.1 k.id (.box a.1), a.2)

/-- Model of `BoxedKey.Value`: read the current contents of the stored box's cell,
else the default fixed at construction. -/
def BoxedKey.Value {V : Type} (k : BoxedKey V) (ctx : Ctx V) (h : Heap V) : V :=
  match assertBox (ctxValue ctx k.id) with
  | some cid => h.cells cid
  | none => k.defaultValue

/-- Model of `BoxedKey.With`: curried `Set`, as a state transformer. -/
def BoxedKey.With {V : Type} (k : BoxedKey V) (val : V) : St V → St V :=
  fun s => k.Set s val

/-- Model of `With(values...)`: compose a list of context(-and-heap) transformers,
applying them in order, left to right. -/
def With {V : Type} (values : List (St V → St V)) : St V → St V :=
  fun s => values.foldl (fun c f => f c) s

/-! Helper lemmas about chain lookup. -/

/-- Looking up an identity just layered on returns that layer's payload. -/
theorem ctxValue_withValue_self {V : Type} (ctx : Ctx V) (id : Nat) (d : Dyn V) :
    ctxValue (ctxWithValue ctx id d) id = d := by
  simp [ctxWithValue, ctxValue]

/-- Layering an entry for a different identity does not change a lookup. -/
theorem ctxValue_withValue_ne {V : Type} (ctx : Ctx V) (i id : Nat) (d : Dyn V)
    (h : i ≠ id) : ctxValue (ctxWithValue ctx i d) id = ctxValue ctx id := by
  simp [ctxWithValue, ctxValue, h]

/-- Layers for other identities are transparent to a lookup. -/
theorem ctxValue_append {V : Type} (ext ctx : Ctx V) (id : Nat)
    (h : ∀ e ∈ ext, e.1 ≠ id) :
    ctxValue (ext ++ ctx) id = ctxValue ctx id := by
  induction ext with
  | nil => rfl
  | cons e rest ih =>
      simp only [List.cons_append, ctxValue]
      rw [if_neg (h e (by simp))]
      exact ih fun x hx => h x (by simp [hx])

/-- A chain with no entry for `id` looks up to the nil interface. -/
theorem ctxValue_of_no_entry {V : Type} (ctx : Ctx V) (id : Nat)
    (h : ∀ e ∈ ctx, e.1 ≠ id) : ctxValue ctx id = .nilIface := by
  induction ctx with
  | nil => rfl
  | cons e rest ih =>
      simp only [ctxValue]
      rw [if_neg (h e (by simp))]
      exact ih fun x hx => h x (by simp [hx])

/-! Helper lemmas about the boxed-key operations. -/

/-- Behaviour of `BoxedKey.Set` when no cell is stored for the key: allocate a fresh box
and layer it atop the context. -/
theorem boxedSet_none {V : Type} (k : BoxedKey V) (s : St V) (v : V)
    (h : assertBox (ctxValue s.1 k.id) = none) :
    BoxedKey.Set k s v =
      (ctxWithValue s.1 k.id (.box s.2.next), (s.2.alloc v).2) := by
  unfold BoxedKey.Set
  rw [h]
  rfl

/-- Behaviour of `BoxedKey.Set` when a cell is stored for the key: overwrite that cell,
context unchanged. -/
theorem boxedSet_some {V : Type} (k : BoxedKey V) (s : St V) (v : V) (cid : Nat)
    (h : assertBox (ctxValue s.1 k.id) = some cid) :
    BoxedKey.Set k s v = (s.1, s.2.write cid v) := by
  unfold BoxedKey.Set
  rw [h]

/-- Behaviour of `BoxedKey.Value` when a cell is stored for the key: read that cell. -/
theorem boxedValue_some {V : Type} (k : BoxedKey V) (ctx : Ctx V) (hp : Heap V)
    (cid : Nat) (h : assertBox (ctxValue ctx k.id) = some cid) :
    BoxedKey.Value k ctx hp = hp.cells cid := by
  unfold BoxedKey.Value
  rw [h]

/-- Behaviour of `BoxedKey.Value` when no cell is stored for the key: the default. -/
theorem boxedValue_none {V : Type} (k : BoxedKey V) (ctx : Ctx V) (hp : Heap V)
    (h : assertBox (ctxValue ctx k.id) = none) :
    BoxedKey.Value k ctx hp = k.defaultValue := by
  unfold BoxedKey.Value
  rw [h]

/-- Looking up right after layering a box finds that box. -/
theorem assertBox_withValue_box {V : Type} (ctx : Ctx V) (id n : Nat) :
    assertBox (ctxValue (ctxWithValue ctx id (.box n)) id) = some n := by
  rw [ctxValue_withValue_self]
  rfl

/-! Claim theorems. -/

/-- Claim C1 counterexample: the claim fails when the value type `V` is an
interface type and the attached value is `V`'s nil interface (modelled by
`V := Option Unit` with `none` as nil).  Attaching `none` under a plain key
and looking it up returns found `= false`, not `(none, true)` as the claim,
quantified over every value `v`, requires. -/
theorem C1_counterexample :
    Key.Value (⟨0⟩ : Key) (none : Option Unit)
      (Key.Set ⟨0⟩ (fun o : Option Unit => o.isNone) [] none) ≠ (none, true) := by
  decide

/-- Claim C1 (amended): for every plain key `K`, scope `S` and value `v` whose
erased representation is not the nil interface, looking up `K` after
attaching `v` under `K` returns `(v, true)`, regardless of which other keys
were attached to `S` before or (with identities other than `K`'s) after. -/
theorem C1_lookup_after_attach {V : Type} (k : Key) (isNil : V → Bool) (zero v : V)
    (ctx ext : Ctx V) (hv : isNil v = false) (hext : ∀ e ∈ ext, e.1 ≠ k.id) :
    Key.Value k zero (ext ++ Key.Set k isNil ctx v) = (v, true) := by
  unfold Key.Value Key.Set
  rw [ctxValue_append _ _ _ hext, ctxValue_withValue_self]
  simp [erase, hv, assertV]

/-- Claim C1 witness: a concrete instance of the amended claim. -/
theorem C1_witness :
    ((fun _ : Nat => false) 5 = false ∧ ∀ e ∈ [(2, Dyn.val 9)], e.1 ≠ 0) ∧
      Key.Value (⟨0⟩ : Key) 0
        ([(2, Dyn.val 9)] ++ Key.Set ⟨0⟩ (fun _ : Nat => false) [(1, Dyn.val 3)] 5) =
        (5, true) :=
  ⟨⟨rfl, by decide⟩,
    C1_lookup_after_attach ⟨0⟩ (fun _ => false) 0 5 [(1, Dyn.val 3)] [(2, Dyn.val 9)]
      rfl (by decide)⟩

/-- Claim C3 failing input, evaluated in the model of the standard Go runtime:
two plain keys produced by successive `New[string]()` calls are the same
context key (both `&Key[string]{}` allocations return the shared zero-size
address `runtime.zerobase`), so attaching `"a"` under the first key is
returned, with found `= true`, by the second key's lookup — the keys
collide, contradicting the claim's (and the spec's) identity-uniqueness
invariant, which would require the lookup to return `("", false)`. -/
theorem C3_zero_size_collision :
    (New ⟨0⟩).1 = (New (New ⟨0⟩).2).1
    ∧ Key.Value (New (New ⟨0⟩).2).1 ""
        (Key.Set (New ⟨0⟩).1 (fun _ : String => false) [] "a") = ("a", true) :=
  ⟨rfl, rfl⟩

/-- Claim C5: `With` applies its operations in order, left to right, and
nesting is associative in observed effect. -/
theorem C5_compose {V : Type} (op1 op2 op3 : St V → St V) (ops : List (St V → St V))
    (s : St V) :
    With [op1, op2] s = op2 (op1 s)
    ∧ With (op1 :: ops) s = With ops (op1 s)
    ∧ With [With [op1, op2], op3] s = With [op1, With [op2, op3]] s :=
  ⟨rfl, rfl, rfl⟩

/-- Claim C6 counterexample: when `V` is an interface type (modelled by
`Option Unit` with `none` as the nil interface) and the most recent attach
stored the nil interface, `DefaultingKey.Value` returns the fallback
`some ()` instead of the most-recently-attached value `none`, so the claim
fails as stated. -/
theorem C6_counterexample :
    DefaultingKey.Value (⟨0, some ()⟩ : DefaultingKey (Option Unit))
      (DefaultingKey.Set ⟨0, some ()⟩ (fun o : Option Unit => o.isNone) [] none) ≠
      none := by
  decide

/-- Claim C6 (amended): a defaulting key's `Value` returns the fallback when no
attach for the key occurred anywhere in the scope's ancestry, and the
most-recently-attached value otherwise, provided that value did not erase to
the nil interface; it never fails (it is a total function). -/
theorem C6_value_or_default {V : Type} (k : DefaultingKey V) (isNil : V → Bool)
    (ctx : Ctx V) (v : V) (h1 : ∀ e ∈ ctx, e.1 ≠ k.id) (hv : isNil v = false) :
    DefaultingKey.Value k ctx = k.defaultValue
    ∧ DefaultingKey.Value k (DefaultingKey.Set k isNil ctx v) = v
    ∧ ∀ c : Ctx V, ctxValue c k.id = .val v → DefaultingKey.Value k c = v := by
  refine ⟨?_, ?_, ?_⟩
  · unfold DefaultingKey.Value
    rw [ctxValue_of_no_entry _ _ h1]
    simp [assertV]
  · unfold DefaultingKey.Value DefaultingKey.Set
    rw [ctxValue_withValue_self]
    simp [erase, hv, assertV]
  · intro c hc
    unfold DefaultingKey.Value
    rw [hc]
    simp [assertV]

/-- Claim C6 witness: a concrete instance of the amended claim. -/
theorem C6_witness :
    ((∀ e ∈ [(1, Dyn.val 3)], e.1 ≠ 0) ∧ (fun _ : Nat => false) 5 = false) ∧
      DefaultingKey.Value (⟨0, 7⟩ : DefaultingKey Nat) [(1, Dyn.val 3)] = 7 ∧
      DefaultingKey.Value ⟨0, 7⟩
        (DefaultingKey.Set ⟨0, 7⟩ (fun _ : Nat => false) [(1, Dyn.val 3)] 5) = 5 ∧
      ∀ c : Ctx Nat, ctxValue c 0 = .val 5 →
        DefaultingKey.Value (⟨0, 7⟩ : DefaultingKey Nat) c = 5 :=
  ⟨⟨by decide, rfl⟩,
    C6_value_or_default ⟨0, 7⟩ (fun _ => false) [(1, Dyn.val 3)] 5 (by decide) rfl⟩

/-- Claim C7 counterexample: the claim fails when the attached value is the nil
interface of an interface value type (modelled by `Option Unit` with `none`
as nil): after attaching `none`, `MustValue` still panics (`none` result)
instead of returning the attached value without error. -/
theorem C7_counterexample :
    Key.MustValue (⟨0⟩ : Key) (none : Option Unit)
      (Key.Set ⟨0⟩ (fun o : Option Unit => o.isNone) [] none) = none := by
  decide

/-- Claim C7 (amended): `MustValue` panics on a scope whose chain contains no
attach for the key, and after one attach of a value `v` that does not erase
to the nil interface it returns `v` without signaling an error. -/
theorem C7_must_value {V : Type} (k : Key) (isNil : V → Bool) (zero v : V)
    (ctx : Ctx V) (h1 : ∀ e ∈ ctx, e.1 ≠ k.id) (hv : isNil v = false) :
    Key.MustValue k zero ctx = none
    ∧ Key.MustValue k zero (Key.Set k isNil ctx v) = some v := by
  constructor
  · unfold Key.MustValue Key.Value
    rw [ctxValue_of_no_entry _ _ h1]
    rfl
  · unfold Key.MustValue Key.Value Key.Set
    rw [ctxValue_withValue_self]
    simp [erase, hv, assertV]

/-- Claim C7 witness: a concrete instance of the amended claim. -/
theorem C7_witness :
    ((∀ e ∈ [(3, (Dyn.other : Dyn Nat))], e.1 ≠ 0) ∧ (fun _ : Nat => false) 4 = false) ∧
      Key.MustValue (⟨0⟩ : Key) 0 [(3, (Dyn.other : Dyn Nat))] = none ∧
      Key.MustValue ⟨0⟩ 0
        (Key.Set ⟨0⟩ (fun _ : Nat => false) [(3, (Dyn.other : Dyn Nat))] 4) =
        some 4 :=
  ⟨⟨by decide, rfl⟩,
    C7_must_value ⟨0⟩ (fun _ => false) 0 4 [(3, Dyn.other)] (by decide) rfl⟩

/-- Claim C9: when the value type is an interface type, attaching its zero
value (the nil interface) is indistinguishable from absence at the read
site: a plain key's `Value` after such an attach returns the zero value with
found `= false` (the type assertion on the stored nil fails), and a
defaulting key's `Value` returns the construction-time fallback rather than
the attached nil. -/
theorem C9_nil_interface {V : Type} (k : Key) (dk : DefaultingKey V)
    (isNil : V → Bool) (zero : V) (ctx c : Ctx V) (hz : isNil zero = true) :
    Key.Value k zero (Key.Set k isNil ctx zero) = (zero, false)
    ∧ DefaultingKey.Value dk (DefaultingKey.Set dk isNil c zero) = dk.defaultValue := by
  constructor
  · unfold Key.Value Key.Set
    rw [ctxValue_withValue_self]
    simp [erase, hz, assertV]
  · unfold DefaultingKey.Value DefaultingKey.Set
    rw [ctxValue_withValue_self]
    simp [erase, hz, assertV]

/-- Claim C9 witness: a concrete instance with `V := Option Unit`, whose
`none` models the nil interface. -/
theorem C9_witness :
    (fun o : Option Unit => o.isNone) none = true ∧
      Key.Value (⟨0⟩ : Key) (none : Option Unit)
        (Key.Set ⟨0⟩ (fun o : Option Unit => o.isNone) [(1, Dyn.other)] none) =
        (none, false) ∧
      DefaultingKey.Value (⟨1, some ()⟩ : DefaultingKey (Option Unit))
        (DefaultingKey.Set ⟨1, some ()⟩ (fun o : Option Unit => o.isNone) [] none) =
        some () :=
  ⟨rfl, C9_nil_interface ⟨0⟩ ⟨1, some ()⟩ (fun o => o.isNone) none [(1, Dyn.other)]
    [] rfl⟩

/-- Claim C4: `MustNonEmptyValue` panics exactly when the resolved value (the
stored value the lookup finds, else the fallback) equals the value type's
zero value; otherwise it returns the resolved value.  In particular,
explicitly attaching the zero value (of a non-interface type, so it is
stored as a genuine value) makes it panic. -/
theorem C4_must_non_empty {V : Type} [DecidableEq V] (k : DefaultingKey V)
    (isNil : V → Bool) (zero : V) (ctx : Ctx V) (hz : isNil zero = false) :
    (DefaultingKey.MustNonEmptyValue k zero ctx = none ↔
      DefaultingKey.Value k ctx = zero)
    ∧ (DefaultingKey.Value k ctx ≠ zero →
        DefaultingKey.MustNonEmptyValue k zero ctx = some (DefaultingKey.Value k ctx))
    ∧ DefaultingKey.MustNonEmptyValue k zero
        (DefaultingKey.Set k isNil ctx zero) = none := by
  refine ⟨?_, ?_, ?_⟩
  · by_cases h : DefaultingKey.Value k ctx = zero <;>
      simp [DefaultingKey.MustNonEmptyValue, h]
  · intro hne
    simp [DefaultingKey.MustNonEmptyValue, hne]
  · unfold DefaultingKey.MustNonEmptyValue DefaultingKey.Value DefaultingKey.Set
    rw [ctxValue_withValue_self]
    simp [erase, hz, assertV]

/-- Claim C4 witness: a concrete instance where the explicitly attached zero
value (the empty string under a string-typed key) triggers the panic. -/
theorem C4_witness :
    (fun _ : String => false) "" = false ∧
      (DefaultingKey.MustNonEmptyValue (⟨0, "d"⟩ : DefaultingKey String) "" [] =
          none ↔ DefaultingKey.Value (⟨0, "d"⟩ : DefaultingKey String) [] = "") ∧
      (DefaultingKey.Value (⟨0, "d"⟩ : DefaultingKey String) [] ≠ "" →
        DefaultingKey.MustNonEmptyValue (⟨0, "d"⟩ : DefaultingKey String) "" [] =
          some (DefaultingKey.Value (⟨0, "d"⟩ : DefaultingKey String) [])) ∧
      DefaultingKey.MustNonEmptyValue (⟨0, "d"⟩ : DefaultingKey String) ""
        (DefaultingKey.Set ⟨0, "d"⟩ (fun _ : String => false) [] "") = none :=
  ⟨rfl, C4_must_non_empty ⟨0, "d"⟩ (fun _ => false) "" [] rfl⟩

/-- Claim C2: for a boxed key, `Value` after `SetBox` returns the default;
after `Set` on the scope returned by `SetBox`, `Value` returns the written
value on that same scope reference (the write mutates the shared cell — the
scope is returned structurally unchanged) and on any scope derived from it
afterward by layering entries for other keys. -/
theorem C2_boxed_cell {V : Type} (k : BoxedKey V) (s : St V) (v : V) (ext : Ctx V)
    (hext : ∀ e ∈ ext, e.1 ≠ k.id) :
    BoxedKey.Value k (BoxedKey.SetBox k s).1 (BoxedKey.SetBox k s).2 = k.defaultValue
    ∧ (BoxedKey.Set k (BoxedKey.SetBox k s) v).1 = (BoxedKey.SetBox k s).1
    ∧ BoxedKey.Value k (BoxedKey.Set k (BoxedKey.SetBox k s) v).1
        (BoxedKey.Set k (BoxedKey.SetBox k s) v).2 = v
    ∧ BoxedKey.Value k (ext ++ (BoxedKey.Set k (BoxedKey.SetBox k s) v).1)
        (BoxedKey.Set k (BoxedKey.SetBox k s) v).2 = v := by
  have hbox : assertBox (ctxValue (BoxedKey.SetBox k s).1 k.id) = some s.2.next :=
    assertBox_withValue_box s.1 k.id s.2.next
  have hboxExt :
      assertBox (ctxValue (ext ++ (BoxedKey.SetBox k s).1) k.id) = some s.2.next := by
    rw [ctxValue_append _ _ _ hext]
    exact hbox
  refine ⟨?_, ?_, ?_, ?_⟩
  · rw [boxedValue_some _ _ _ _ hbox]
    simp [BoxedKey.SetBox, Heap.alloc]
  · rw [boxedSet_some _ _ _ _ hbox]
  · rw [boxedSet_some _ _ _ _ hbox, boxedValue_some _ _ _ _ hbox]
    simp [Heap.write]
  · rw [boxedSet_some _ _ _ _ hbox, boxedValue_some _ _ _ _ hboxExt]
    simp [Heap.write]

/-- Claim C2 witness: a concrete instance. -/
theorem C2_witness :
    (∀ e ∈ [(1, Dyn.val 9)], e.1 ≠ 0) ∧
      (BoxedKey.Value (⟨0, 7⟩ : BoxedKey Nat)
          (BoxedKey.SetBox ⟨0, 7⟩ ([], ⟨fun _ => 0, 0⟩)).1
          (BoxedKey.SetBox ⟨0, 7⟩ ([], ⟨fun _ => 0, 0⟩)).2 = 7
        ∧ (BoxedKey.Set ⟨0, 7⟩ (BoxedKey.SetBox ⟨0, 7⟩ ([], ⟨fun _ => 0, 0⟩)) 5).1 =
            (BoxedKey.SetBox (⟨0, 7⟩ : BoxedKey Nat) ([], ⟨fun _ => 0, 0⟩)).1
        ∧ BoxedKey.Value ⟨0, 7⟩
            (BoxedKey.Set ⟨0, 7⟩ (BoxedKey.SetBox ⟨0, 7⟩ ([], ⟨fun _ => 0, 0⟩)) 5).1
            (BoxedKey.Set ⟨0, 7⟩ (BoxedKey.SetBox ⟨0, 7⟩ ([], ⟨fun _ => 0, 0⟩)) 5).2 = 5
        ∧ BoxedKey.Value ⟨0, 7⟩
            ([(1, Dyn.val 9)] ++
              (BoxedKey.Set ⟨0, 7⟩ (BoxedKey.SetBox ⟨0, 7⟩ ([], ⟨fun _ => 0, 0⟩)) 5).1)
            (BoxedKey.Set ⟨0, 7⟩ (BoxedKey.SetBox ⟨0, 7⟩ ([], ⟨fun _ => 0, 0⟩)) 5).2 =
            5) :=
  ⟨by decide, C2_boxed_cell ⟨0, 7⟩ ([], ⟨fun _ => 0, 0⟩) 5 [(1, Dyn.val 9)] (by decide)⟩

/-- Claim C8: `BoxedKey.Set` on a scope holding no cell for the key layers a
brand-new cell atop the scope; the written value is visible on the returned
scope, while a holder of the earlier scope still reads the fallback.  Once a
cell exists, a further `Set` mutates that cell in place and returns the
scope structurally unchanged. -/
theorem C8_set_paths {V : Type} (k : BoxedKey V) (ctx : Ctx V) (h : Heap V) (v w : V)
    (hfree : assertBox (ctxValue ctx k.id) = none) :
    (BoxedKey.Set k (ctx, h) v).1 = ctxWithValue ctx k.id (.box h.next)
    ∧ BoxedKey.Value k (BoxedKey.Set k (ctx, h) v).1 (BoxedKey.Set k (ctx, h) v).2 = v
    ∧ BoxedKey.Value k ctx (BoxedKey.Set k (ctx, h) v).2 = k.defaultValue
    ∧ (BoxedKey.Set k (BoxedKey.Set k (ctx, h) v) w).1 = (BoxedKey.Set k (ctx, h) v).1
    ∧ BoxedKey.Value k (BoxedKey.Set k (ctx, h) v).1
        (BoxedKey.Set k (BoxedKey.Set k (ctx, h) v) w).2 = w := by
  have e1 : BoxedKey.Set k (ctx, h) v =
      (ctxWithValue ctx k.id (.box h.next), (h.alloc v).2) :=
    boxedSet_none k (ctx, h) v hfree
  have hbox2 : assertBox (ctxValue (BoxedKey.Set k (ctx, h) v).1 k.id) = some h.next := by
    rw [e1]
    exact assertBox_withValue_box ctx k.id h.next
  refine ⟨?_, ?_, ?_, ?_, ?_⟩
  · rw [e1]
  · rw [boxedValue_some _ _ _ _ hbox2, e1]
    simp [Heap.alloc]
  · exact boxedValue_none _ _ _ hfree
  · rw [boxedSet_some _ _ _ _ hbox2]
  · rw [boxedSet_some _ _ _ _ hbox2, boxedValue_some _ _ _ _ hbox2]
    simp [Heap.write]

/-- Claim C8 witness: a concrete instance starting from an empty scope. -/
theorem C8_witness :
    assertBox (ctxValue ([] : Ctx Nat) 0) = none ∧
      ((BoxedKey.Set (⟨0, 7⟩ : BoxedKey Nat) ([], ⟨fun _ => 0, 0⟩) 5).1 =
          ctxWithValue [] 0 (.box 0)
        ∧ BoxedKey.Value ⟨0, 7⟩ (BoxedKey.Set (⟨0, 7⟩ : BoxedKey Nat) ([], ⟨fun _ => 0, 0⟩) 5).1
            (BoxedKey.Set (⟨0, 7⟩ : BoxedKey Nat) ([], ⟨fun _ => 0, 0⟩) 5).2 = 5
        ∧ BoxedKey.Value ⟨0, 7⟩ ([] : Ctx Nat)
            (BoxedKey.Set (⟨0, 7⟩ : BoxedKey Nat) ([], ⟨fun _ => 0, 0⟩) 5).2 = 7
        ∧ (BoxedKey.Set ⟨0, 7⟩ (BoxedKey.Set (⟨0, 7⟩ : BoxedKey Nat) ([], ⟨fun _ => 0, 0⟩) 5) 9).1 =
            (BoxedKey.Set (⟨0, 7⟩ : BoxedKey Nat) ([], ⟨fun _ => 0, 0⟩) 5).1
        ∧ BoxedKey.Value ⟨0, 7⟩ (BoxedKey.Set (⟨0, 7⟩ : BoxedKey Nat) ([], ⟨fun _ => 0, 0⟩) 5).1
            (BoxedKey.Set ⟨0, 7⟩ (BoxedKey.Set (⟨0, 7⟩ : BoxedKey Nat) ([], ⟨fun _ => 0, 0⟩) 5) 9).2 =
            9) :=
  ⟨rfl, C8_set_paths ⟨0, 7⟩ [] ⟨fun _ => 0, 0⟩ 5 9 rfl⟩

/-- Claim C10: a second `SetBox` on a scope that already contains a cell layers
a fresh cell initialized to the fallback, shadowing the earlier cell.  A
`Set` on the derived scope mutates only the newer cell, while a holder of
the scope from before the second `SetBox` still reads the older cell's
value, which is unchanged. -/
theorem C10_setbox_shadows {V : Type} (k : BoxedKey V) (s : St V) (v w : V) :
    BoxedKey.Value k (BoxedKey.SetBox k (BoxedKey.Set k (BoxedKey.SetBox k s) w)).1
        (BoxedKey.SetBox k (BoxedKey.Set k (BoxedKey.SetBox k s) w)).2 =
        k.defaultValue
    ∧ (BoxedKey.Set k (BoxedKey.SetBox k (BoxedKey.Set k (BoxedKey.SetBox k s) w)) v).1 =
        (BoxedKey.SetBox k (BoxedKey.Set k (BoxedKey.SetBox k s) w)).1
    ∧ BoxedKey.Value k
        (BoxedKey.SetBox k (BoxedKey.Set k (BoxedKey.SetBox k s) w)).1
        (BoxedKey.Set k (BoxedKey.SetBox k (BoxedKey.Set k (BoxedKey.SetBox k s) w)) v).2 =
        v
    ∧ BoxedKey.Value k (BoxedKey.SetBox k s).1
        (BoxedKey.Set k (BoxedKey.SetBox k (BoxedKey.Set k (BoxedKey.SetBox k s) w)) v).2 =
        w := by
  have hbox1 : assertBox (ctxValue (BoxedKey.SetBox k s).1 k.id) = some s.2.next :=
    assertBox_withValue_box s.1 k.id s.2.next
  have e2 : BoxedKey.Set k (BoxedKey.SetBox k s) w =
      ((BoxedKey.SetBox k s).1, (BoxedKey.SetBox k s).2.write s.2.next w) :=
    boxedSet_some _ _ _ _ hbox1
  have hnext : (BoxedKey.Set k (BoxedKey.SetBox k s) w).2.next = s.2.next + 1 := by
    rw [e2]
    simp [BoxedKey.SetBox, Heap.alloc, Heap.write]
  have hbox2 : assertBox
      (ctxValue (BoxedKey.SetBox k (BoxedKey.Set k (BoxedKey.SetBox k s) w)).1 k.id) =
      some (BoxedKey.Set k (BoxedKey.SetBox k s) w).2.next :=
    assertBox_withValue_box _ k.id _
  refine ⟨?_, ?_, ?_, ?_⟩
  · rw [boxedValue_some _ _ _ _ hbox2]
    simp [BoxedKey.SetBox, Heap.alloc]
  · rw [boxedSet_some _ _ _ _ hbox2]
  · rw [boxedSet_some _ _ _ _ hbox2, boxedValue_some _ _ _ _ hbox2]
    simp [Heap.write]
  · rw [boxedSet_some _ _ _ _ hbox2, boxedValue_some _ _ _ _ hbox1]
    rw [hnext, e2]
    simp [BoxedKey.SetBox, Heap.alloc, Heap.write]

end Ctxkey
